import Mathlib

/-!
Verification of the coordinate codec in `latlong.c` (Dire Wolf).

The C doubles are modelled as rationals (`ℚ`); all arithmetic performed by
the codec on the reachable value ranges is exact, so rationals are a faithful
model of the computations the claims are about.  C strings are modelled as
`List Char`, and the diagnostic sink (`dw_printf` after `text_color_set`) is
modelled by returning the list of warning messages alongside each result.
`sprintf` number formatting and `round` are modelled by explicit executable
definitions, documented at each definition.
-/

/-- The NUL character terminating / padding C strings. -/
def nulChar : Char := Char.ofNat 0

/-- Model of C `isdigit` (in the C locale): true exactly for '0'..'9'. -/
def isdigit (c : Char) : Bool := 48 ≤ c.toNat && c.toNat ≤ 57

/-- The ASCII character of a decimal digit value. -/
def digitChar (d : ℕ) : Char := Char.ofNat (48 + d)

/-- Fuel-driven most-significant-first decimal digit list of a natural
number.  The fuel argument only forces structural termination; with fuel at
least the number itself every digit is produced. -/
def digitsGo : ℕ → ℕ → List Char
  | 0, _ => []
  | _ + 1, 0 => []
  | fuel + 1, n + 1 => digitsGo fuel ((n + 1) / 10) ++ [digitChar ((n + 1) % 10)]

/-- Decimal digit characters of `n`, most significant first (empty for 0). -/
def natDigits (n : ℕ) : List Char := digitsGo n n

/-- Model of `sprintf "%0wd"` for a nonnegative value: decimal digits of `n`
left-padded with '0' to width `w`.  (Every integer formatted by the codec is
nonnegative on all reachable paths.) -/
def pad_nat (w : ℕ) (n : ℕ) : List Char :=
  List.replicate (w - (natDigits n).length) '0' ++ natDigits n

/-- Model of the C cast `(int)` on a double: truncation toward zero. -/
def c_trunc (q : ℚ) : ℤ := if q < 0 then -⌊-q⌋ else ⌊q⌋

/-- Model of `sprintf` `"%05.2f"` (`w = 2`) and `"%07.4f"` (`w = 4`) for the
nonnegative minutes values arising in the codec: round to `w` fractional
digits, then print a two-digit zero-padded integer part, the decimal point,
and `w` zero-padded fractional digits.  Rounding is round-to-nearest (the
reachable values are never exact decimal ties, so the tie-breaking rule is
irrelevant). -/
def fmt_min (w : ℕ) (dmin : ℚ) : List Char :=
  let n : ℕ := (round (dmin * 10 ^ w)).toNat
  pad_nat 2 (n / 10 ^ w) ++ '.' :: pad_nat w (n % 10 ^ w)

/-- Modelled from the spec: the distinguished "unknown" sentinel coordinate
(`G_UNKNOWN`, defined in the project header `direwolf.h`, which is not part
of the sources in scope).  Per the spec it is a value "disjoint from any
valid coordinate"; the header's value is -999999. -/
def G_UNKNOWN : ℚ := -999999

/-- Latitude after the two clamping `if`s of the encoders. -/
def lat_clamped (dlat : ℚ) : ℚ :=
  if dlat < -90 then -90 else if dlat > 90 then 90 else dlat

/-- Warnings emitted by the latitude clamping `if`s (at most one fires). -/
def lat_clamp_warns (dlat : ℚ) : List String :=
  if dlat < -90 then ["Latitude is less than -90.  Changing to -90.n"]
  else if dlat > 90 then ["Latitude is greater than 90.  Changing to 90.n"]
  else []

/-- Hemisphere letter chosen from the sign of the clamped latitude. -/
def lat_hemi (dlat : ℚ) : Char := if lat_clamped dlat < 0 then 'S' else 'N'

/-- Absolute value of the clamped latitude (the negation branch of the
hemisphere `if`). -/
def lat_abs (dlat : ℚ) : ℚ :=
  if lat_clamped dlat < 0 then -(lat_clamped dlat) else lat_clamped dlat

/-- `ideg = (int)dlat`: whole number of degrees. -/
def lat_ideg (dlat : ℚ) : ℤ := c_trunc (lat_abs dlat)

/-- `dmin = (dlat - ideg) * 60`: minutes after removing degrees. -/
def lat_dmin (dlat : ℚ) : ℚ := (lat_abs dlat - lat_ideg dlat) * 60

/-- Longitude after the two clamping `if`s of the encoders. -/
def lon_clamped (dlong : ℚ) : ℚ :=
  if dlong < -180 then -180 else if dlong > 180 then 180 else dlong

/-- Warnings emitted by the longitude clamping `if`s in `longitude_to_str`
and `longitude_to_comp_str`. -/
def lon_clamp_warns (dlong : ℚ) : List String :=
  if dlong < -180 then ["Longitude is less than -180.  Changing to -180.n"]
  else if dlong > 180 then ["Longitude is greater than 180.  Changing to 180.n"]
  else []

/-- Hemisphere letter chosen from the sign of the clamped longitude. -/
def lon_hemi (dlong : ℚ) : Char := if lon_clamped dlong < 0 then 'W' else 'E'

/-- Absolute value of the clamped longitude. -/
def lon_abs (dlong : ℚ) : ℚ :=
  if lon_clamped dlong < 0 then -(lon_clamped dlong) else lon_clamped dlong

/-- `ideg = (int)dlong`: whole number of degrees. -/
def lon_ideg (dlong : ℚ) : ℤ := c_trunc (lon_abs dlong)

/-- `dmin = (dlong - ideg) * 60`: minutes after removing degrees. -/
def lon_dmin (dlong : ℚ) : ℚ := (lon_abs dlong - lon_ideg dlong) * 60

/-- The minutes string after the rounding-carry fixup `smin[0] = '0'`
(latitude, `w` fractional digits). -/
def lat_smin2 (w : ℕ) (dlat : ℚ) : List Char :=
  let smin := fmt_min w (lat_dmin dlat)
  if smin.headD '?' = '6' then smin.set 0 '0' else smin

/-- The degree count after the rounding-carry fixup `ideg++` (latitude,
`w` fractional digits). -/
def lat_ideg2 (w : ℕ) (dlat : ℚ) : ℤ :=
  if (fmt_min w (lat_dmin dlat)).headD '?' = '6' then lat_ideg dlat + 1 else lat_ideg dlat

/-- The minutes string after the rounding-carry fixup (longitude). -/
def lon_smin2 (w : ℕ) (dlong : ℚ) : List Char :=
  let smin := fmt_min w (lon_dmin dlong)
  if smin.headD '?' = '6' then smin.set 0 '0' else smin

/-- The degree count after the rounding-carry fixup (longitude). -/
def lon_ideg2 (w : ℕ) (dlong : ℚ) : ℤ :=
  if (fmt_min w (lon_dmin dlong)).headD '?' = '6' then lon_ideg dlong + 1 else lon_ideg dlong

/-- `latitude_to_str`: human-readable latitude `ddmm.mm[NS]` with ambiguity
blanking.  Returns the 8-character field and the diagnostic warnings. -/
def latitude_to_str (dlat : ℚ) (ambiguity : ℤ) : List Char × List String :=
  let slat := pad_nat 2 (lat_ideg2 2 dlat).toNat ++ lat_smin2 2 dlat ++ [lat_hemi dlat]
  let slat2 :=
    if 1 ≤ ambiguity then
      let s1 := slat.set 6 ' '
      if 2 ≤ ambiguity then
        let s2 := s1.set 5 ' '
        if 3 ≤ ambiguity then
          let s3 := s2.set 3 ' '
          if 4 ≤ ambiguity then s3.set 2 ' ' else s3
        else s2
      else s1
    else slat
  (slat2, lat_clamp_warns dlat)

/-- `longitude_to_str`: human-readable longitude `dddmm.mm[EW]` with
ambiguity blanking.  Returns the 9-character field and the warnings. -/
def longitude_to_str (dlong : ℚ) (ambiguity : ℤ) : List Char × List String :=
  let slong := pad_nat 3 (lon_ideg2 2 dlong).toNat ++ lon_smin2 2 dlong ++ [lon_hemi dlong]
  let slong2 :=
    if 1 ≤ ambiguity then
      let s1 := slong.set 7 ' '
      if 2 ≤ ambiguity then
        let s2 := s1.set 6 ' '
        if 3 ≤ ambiguity then
          let s3 := s2.set 4 ' '
          if 4 ≤ ambiguity then s3.set 3 ' ' else s3
        else s2
      else s1
    else slong
  (slong2, lon_clamp_warns dlong)

/-- The scaled integer `y = (int)round(380926. * (90. - dlat))` of the
compressed latitude encoder (computed on the clamped input). -/
def lat_comp_y (dlat : ℚ) : ℤ := round (380926 * (90 - lat_clamped dlat))

/-- The successive-division block shared verbatim by both compressed
encoders: split the scaled integer into four base-91 digits (most
significant first) and add 33 to each.  `Int.tdiv` models C's truncating
integer division (all operands here are nonnegative). -/
def comp4 (y : ℤ) : List ℤ :=
  let y0 := Int.tdiv y (91 * 91 * 91)
  let r1 := y - y0 * (91 * 91 * 91)
  let y1 := Int.tdiv r1 (91 * 91)
  let r2 := r1 - y1 * (91 * 91)
  let y2 := Int.tdiv r2 91
  let y3 := r2 - y2 * 91
  [y0 + 33, y1 + 33, y2 + 33, y3 + 33]

/-- `latitude_to_comp_str`: compressed (Base91) latitude.  The four output
bytes are returned as integers (the C `char` values). -/
def latitude_to_comp_str (dlat : ℚ) : List ℤ × List String :=
  (comp4 (lat_comp_y dlat), lat_clamp_warns dlat)

/-- The scaled integer `x = (int)round(190463. * (180. + dlong))` of the
compressed longitude encoder (computed on the clamped input). -/
def lon_comp_x (dlong : ℚ) : ℤ := round (190463 * (180 + lon_clamped dlong))

/-- `longitude_to_comp_str`: compressed (Base91) longitude. -/
def longitude_to_comp_str (dlong : ℚ) : List ℤ × List String :=
  (comp4 (lon_comp_x dlong), lon_clamp_warns dlong)

/-- `latitude_to_nmea`: NMEA latitude `ddmm.mmmm` plus hemisphere string.
Returns (numeric string, hemisphere string, warnings). -/
def latitude_to_nmea (dlat : ℚ) : List Char × List Char × List String :=
  if dlat = G_UNKNOWN then ([], [], [])
  else
    let hemi := if lat_clamped dlat < 0 then ['S'] else ['N']
    (pad_nat 2 (lat_ideg2 4 dlat).toNat ++ lat_smin2 4 dlat, hemi, lat_clamp_warns dlat)

/-- `longitude_to_nmea`: NMEA longitude `dddmm.mmmm` plus hemisphere
string.  Returns (numeric string, hemisphere string, warnings). -/
def longitude_to_nmea (dlong : ℚ) : List Char × List Char × List String :=
  if dlong = G_UNKNOWN then ([], [], [])
  else
    let hemi := if lon_clamped dlong < 0 then ['W'] else ['E']
    (pad_nat 3 (lon_ideg2 4 dlong).toNat ++ lon_smin2 4 dlong, hemi, lon_clamp_warns dlong)

/-- Value of a run of decimal digit characters, most significant first. -/
def digitsVal (l : List Char) : ℕ := l.foldl (fun a c => a * 10 + (c.toNat - 48)) 0

/-- Model of C `atof` restricted to plain decimal notation: optional leading
blanks, an optional sign, integer digits, and an optional '.' followed by
fraction digits.  (The exponent notation `atof` also accepts never occurs in
the coordinate fields in scope and is not modelled.) -/
def atof_model (l : List Char) : ℚ :=
  let l1 := l.dropWhile fun c => c = ' ' ∨ c = '\t'
  let sgn : ℚ := match l1 with
    | '-' :: _ => -1
    | _ => 1
  let l2 := match l1 with
    | '-' :: t => t
    | '+' :: t => t
    | _ => l1
  let ip := l2.takeWhile fun c => isdigit c
  let rest := l2.dropWhile fun c => isdigit c
  let fp : ℚ := match rest with
    | '.' :: t =>
      let fd := t.takeWhile fun c => isdigit c
      (digitsVal fd : ℚ) / 10 ^ fd.length
    | _ => 0
  sgn * ((digitsVal ip : ℚ) + fp)

/-- The magnitude computed by `latitude_from_nmea` once the structural
checks have passed: `(pstr[0]-'0')*10 + (pstr[1]-'0') + atof(pstr+2)/60.0`. -/
def nmea_lat_base (pstr : List Char) : ℚ :=
  (((pstr.getD 0 nulChar).toNat : ℤ) - 48) * 10 + (((pstr.getD 1 nulChar).toNat : ℤ) - 48)
    + atof_model (pstr.drop 2) / 60

/-- The magnitude computed by `longitude_from_nmea` once the structural
checks have passed. -/
def nmea_lon_base (pstr : List Char) : ℚ :=
  (((pstr.getD 0 nulChar).toNat : ℤ) - 48) * 100 + (((pstr.getD 1 nulChar).toNat : ℤ) - 48) * 10
    + (((pstr.getD 2 nulChar).toNat : ℤ) - 48) + atof_model (pstr.drop 3) / 60

/-- `latitude_from_nmea`: decode an NMEA latitude field plus hemisphere
field into degrees.  Returns the value and the diagnostic warnings. -/
def latitude_from_nmea (pstr phemi : List Char) : ℚ × List String :=
  if ¬ isdigit (pstr.getD 0 nulChar) then (G_UNKNOWN, [])
  else if pstr.getD 4 nulChar ≠ '.' then (G_UNKNOWN, [])
  else
    let lat := nmea_lat_base pstr
    let w1 := if lat < 0 ∨ lat > 90 then ["Error: Latitude not in range of 0 to 90.\n"] else []
    let h := phemi.getD 0 nulChar
    let w2 := if h ≠ 'N' ∧ h ≠ 'S' ∧ h ≠ nulChar
      then w1 ++ ["Error: Latitude hemisphere should be N or S.\n"] else w1
    (if h = 'S' then -lat else lat, w2)

/-- `longitude_from_nmea`: decode an NMEA longitude field plus hemisphere
field into degrees.  Returns the value and the diagnostic warnings. -/
def longitude_from_nmea (pstr phemi : List Char) : ℚ × List String :=
  if ¬ isdigit (pstr.getD 0 nulChar) then (G_UNKNOWN, [])
  else if pstr.getD 5 nulChar ≠ '.' then (G_UNKNOWN, [])
  else
    let lon := nmea_lon_base pstr
    let w1 := if lon < 0 ∨ lon > 180 then ["Error: Longitude not in range of 0 to 180.\n"] else []
    let h := phemi.getD 0 nulChar
    let w2 := if h ≠ 'E' ∧ h ≠ 'W' ∧ h ≠ nulChar
      then w1 ++ ["Error: Longitude hemisphere should be E or W.\n"] else w1
    (if h = 'W' then -lon else lon, w2)

/-- Blank (space out) the listed character positions of a field, in order. -/
def blankAt (idxs : List ℕ) (l : List Char) : List Char :=
  idxs.foldl (fun a i => a.set i ' ') l

/-- Character positions of the latitude field `ddmm.mmH` blanked at a given
ambiguity level: 6 (hundredths of minutes), 5 (tenths), 3 (units of
minutes), 2 (tens of minutes), accumulated in that order. -/
def latBlanks (k : ℤ) : List ℕ :=
  (if 1 ≤ k then [6] else []) ++ (if 2 ≤ k then [5] else [])
    ++ (if 3 ≤ k then [3] else []) ++ (if 4 ≤ k then [2] else [])

/-- Character positions of the longitude field `dddmm.mmH` blanked at a
given ambiguity level (the latitude positions shifted by the extra degree
digit). -/
def lonBlanks (k : ℤ) : List ℕ :=
  (if 1 ≤ k then [7] else []) ++ (if 2 ≤ k then [6] else [])
    ++ (if 3 ≤ k then [4] else []) ++ (if 4 ≤ k then [3] else [])

/-- Position `j` of a field reads as blanked (is a space character). -/
def isBlank (l : List Char) (j : ℕ) : Prop := l.getD j '?' = ' '

/-! Helper lemmas about digit strings and padding. -/

lemma digitChar_toNat : ∀ d < 10, 48 ≤ (digitChar d).toNat ∧ (digitChar d).toNat ≤ 57 := by
  decide

lemma digitsGo_mem : ∀ (f n : ℕ) (c : Char), c ∈ digitsGo f n →
    48 ≤ c.toNat ∧ c.toNat ≤ 57 := by
  intro f
  induction f with
  | zero => intro n c hc; simp [digitsGo] at hc
  | succ f ih =>
    intro n c hc
    match n with
    | 0 => simp [digitsGo] at hc
    | n + 1 =>
      simp only [digitsGo, List.mem_append, List.mem_singleton] at hc
      rcases hc with hc | hc
      · exact ih _ _ hc
      · subst hc; exact digitChar_toNat _ (Nat.mod_lt _ (by norm_num))

lemma digitsGo_length_le : ∀ (f n w : ℕ), n ≤ f → n < 10 ^ w →
    (digitsGo f n).length ≤ w := by
  intro f
  induction f with
  | zero =>
    intro n w hn _
    interval_cases n
    simp [digitsGo]
  | succ f ih =>
    intro n w hn hw
    match n with
    | 0 => simp [digitsGo]
    | n + 1 =>
      match w with
      | 0 => omega
      | w + 1 =>
        have h1 : (n + 1) / 10 < 10 ^ w := by
          rw [Nat.div_lt_iff_lt_mul (by norm_num)]
          calc n + 1 < 10 ^ (w + 1) := hw
          _ = 10 ^ w * 10 := by ring
        have h2 : (n + 1) / 10 ≤ f := by
          have := Nat.div_lt_self (Nat.succ_pos n) (by norm_num : 1 < 10)
          omega
        simp only [digitsGo, List.length_append, List.length_singleton]
        have := ih _ _ h2 h1
        omega

lemma natDigits_length_le (n w : ℕ) (h : n < 10 ^ w) : (natDigits n).length ≤ w :=
  digitsGo_length_le n n w le_rfl h

lemma pad_nat_length (w n : ℕ) (h : n < 10 ^ w) : (pad_nat w n).length = w := by
  have := natDigits_length_le n w h
  simp only [pad_nat, List.length_append, List.length_replicate]
  omega

lemma pad_nat_mem (w n : ℕ) (c : Char) (h : c ∈ pad_nat w n) :
    48 ≤ c.toNat ∧ c.toNat ≤ 57 := by
  simp only [pad_nat, List.mem_append] at h
  rcases h with h | h
  · have := List.eq_of_mem_replicate h
    subst this
    decide
  · exact digitsGo_mem _ _ _ h

lemma pad_nat_zero (w : ℕ) : pad_nat w 0 = List.replicate w '0' := by
  simp [pad_nat, natDigits, digitsGo]

lemma pad2_headD_six : ∀ m < 61, ((pad_nat 2 m).headD '?' = '6' ↔ m = 60) := by
  decide

/-! Helper lemmas about lists. -/

lemma headD_append (l r : List Char) (c : Char) (h : l ≠ []) :
    (l ++ r).headD c = l.headD c := by
  cases l with
  | nil => exact absurd rfl h
  | cons a t => rfl

lemma getD_set_iff (l : List Char) (i j : ℕ) (a d : Char) :
    (l.set i a).getD j d = if i = j ∧ j < l.length then a else l.getD j d := by
  by_cases hij : i = j
  · subst hij
    by_cases hl : i < l.length
    · simp [List.getD_eq_getElem?_getD, List.getElem?_set, hl]
    · rw [List.getD_eq_default _ _ (by simpa using Nat.le_of_not_lt hl),
        List.getD_eq_default _ _ (Nat.le_of_not_lt hl)]
      simp [hl]
  · simp [List.getD_eq_getElem?_getD, List.getElem?_set_ne hij, hij]

lemma drop_len_append (l r : List Char) (n : ℕ) (h : l.length = n) :
    (l ++ r).drop n = r := by
  subst h; exact List.drop_left l r

lemma take_len_append (l r : List Char) (n : ℕ) (h : l.length = n) :
    (l ++ r).take n = l := by
  subst h; exact List.take_left l r

/-! Helper lemmas about clamping, truncation and rounding. -/

lemma c_trunc_of_nonneg (q : ℚ) (h : 0 ≤ q) : c_trunc q = ⌊q⌋ := by
  simp [c_trunc, not_lt.2 h]

lemma lat_clamped_range (d : ℚ) : -90 ≤ lat_clamped d ∧ lat_clamped d ≤ 90 := by
  unfold lat_clamped
  split_ifs <;> constructor <;> linarith

lemma lat_abs_range (d : ℚ) : 0 ≤ lat_abs d ∧ lat_abs d ≤ 90 := by
  have h := lat_clamped_range d
  unfold lat_abs
  split_ifs with hs <;> constructor <;> linarith

lemma lat_ideg_eq_floor (d : ℚ) : lat_ideg d = ⌊lat_abs d⌋ :=
  c_trunc_of_nonneg _ (lat_abs_range d).1

lemma lat_ideg_range (d : ℚ) : 0 ≤ lat_ideg d ∧ lat_ideg d ≤ 90 := by
  rw [lat_ideg_eq_floor]
  have h := lat_abs_range d
  constructor
  · exact Int.le_floor.2 (by exact_mod_cast h.1)
  · have : (⌊lat_abs d⌋ : ℚ) ≤ 90 := le_trans (Int.floor_le _) h.2
    exact_mod_cast this

lemma lat_dmin_range (d : ℚ) : 0 ≤ lat_dmin d ∧ lat_dmin d < 60 := by
  unfold lat_dmin
  rw [lat_ideg_eq_floor]
  have h1 := Int.floor_le (lat_abs d)
  have h2 := Int.lt_floor_add_one (lat_abs d)
  constructor <;> nlinarith

lemma lon_clamped_range (d : ℚ) : -180 ≤ lon_clamped d ∧ lon_clamped d ≤ 180 := by
  unfold lon_clamped
  split_ifs <;> constructor <;> linarith

lemma lon_abs_range (d : ℚ) : 0 ≤ lon_abs d ∧ lon_abs d ≤ 180 := by
  have h := lon_clamped_range d
  unfold lon_abs
  split_ifs with hs <;> constructor <;> linarith

lemma lon_ideg_eq_floor (d : ℚ) : lon_ideg d = ⌊lon_abs d⌋ :=
  c_trunc_of_nonneg _ (lon_abs_range d).1

lemma lon_ideg_range (d : ℚ) : 0 ≤ lon_ideg d ∧ lon_ideg d ≤ 180 := by
  rw [lon_ideg_eq_floor]
  have h := lon_abs_range d
  constructor
  · exact Int.le_floor.2 (by exact_mod_cast h.1)
  · have : (⌊lon_abs d⌋ : ℚ) ≤ 180 := le_trans (Int.floor_le _) h.2
    exact_mod_cast this

lemma lon_dmin_range (d : ℚ) : 0 ≤ lon_dmin d ∧ lon_dmin d < 60 := by
  unfold lon_dmin
  rw [lon_ideg_eq_floor]
  have h1 := Int.floor_le (lon_abs d)
  have h2 := Int.lt_floor_add_one (lon_abs d)
  constructor <;> nlinarith

lemma round_bounds (x : ℚ) (B : ℤ) (h0 : 0 ≤ x) (h1 : x < B) :
    0 ≤ round x ∧ round x ≤ B := by
  rw [round_eq]
  constructor
  · exact Int.le_floor.2 (by push_cast; linarith)
  · have : ⌊x + 1 / 2⌋ < B + 1 := Int.floor_lt.2 (by push_cast; linarith)
    omega

/-! Helper lemmas about the formatted minutes string and the carry fixup. -/

lemma fmt_n_le (dmin : ℚ) (w : ℕ) (h0 : 0 ≤ dmin) (h1 : dmin < 60) :
    (round (dmin * 10 ^ w)).toNat ≤ 60 * 10 ^ w := by
  have hb := round_bounds (dmin * 10 ^ w) ((60 * 10 ^ w : ℕ) : ℤ)
    (by positivity)
    (by
      push_cast
      have hp : (0 : ℚ) < 10 ^ w := by positivity
      nlinarith)
  omega

lemma fmt_div_le (n w : ℕ) (h : n ≤ 60 * 10 ^ w) : n / 10 ^ w ≤ 60 := by
  have hp : 0 < 10 ^ w := Nat.pos_pow_of_pos w (by norm_num)
  calc n / 10 ^ w ≤ (60 * 10 ^ w) / 10 ^ w := Nat.div_le_div_right h
  _ = 60 := Nat.mul_div_cancel 60 hp

lemma pad2_ne_nil (m : ℕ) (h : m < 100) : pad_nat 2 m ≠ [] := by
  have hl : (pad_nat 2 m).length = 2 := pad_nat_length 2 m (by norm_num; omega)
  intro he
  rw [he] at hl
  simp at hl

lemma fmt_min_headD (w : ℕ) (dmin : ℚ)
    (h : (round (dmin * 10 ^ w)).toNat / 10 ^ w < 100) :
    (fmt_min w dmin).headD '?' =
      (pad_nat 2 ((round (dmin * 10 ^ w)).toNat / 10 ^ w)).headD '?' :=
  headD_append _ _ _ (pad2_ne_nil _ h)

lemma fmt_min_head_six (w : ℕ) (dmin : ℚ) (h0 : 0 ≤ dmin) (h1 : dmin < 60) :
    ((fmt_min w dmin).headD '?' = '6' ↔ (round (dmin * 10 ^ w)).toNat = 60 * 10 ^ w) := by
  have hn := fmt_n_le dmin w h0 h1
  have hp : 0 < 10 ^ w := Nat.pos_pow_of_pos w (by norm_num)
  have hm : (round (dmin * 10 ^ w)).toNat / 10 ^ w ≤ 60 := fmt_div_le _ w hn
  rw [fmt_min_headD w dmin (by omega), pad2_headD_six _ (by omega)]
  constructor
  · intro h6
    have h60 : 60 * 10 ^ w ≤ (round (dmin * 10 ^ w)).toNat :=
      (Nat.le_div_iff_mul_le hp).1 (le_of_eq h6.symm)
    omega
  · intro he
    rw [he]
    exact Nat.mul_div_cancel 60 hp

lemma fmt_min_carry (w : ℕ) (dmin : ℚ)
    (h : (round (dmin * 10 ^ w)).toNat = 60 * 10 ^ w) :
    fmt_min w dmin = '6' :: '0' :: '.' :: List.replicate w '0' := by
  have hp : 0 < 10 ^ w := Nat.pos_pow_of_pos w (by norm_num)
  show pad_nat 2 ((round (dmin * 10 ^ w)).toNat / 10 ^ w) ++ '.' ::
      pad_nat w ((round (dmin * 10 ^ w)).toNat % 10 ^ w) = _
  rw [h, Nat.mul_div_cancel 60 hp, Nat.mul_mod_left, pad_nat_zero]
  rfl

lemma fmt_min_length (w : ℕ) (dmin : ℚ) (h0 : 0 ≤ dmin) (h1 : dmin < 60) :
    (fmt_min w dmin).length = w + 3 := by
  have hn := fmt_n_le dmin w h0 h1
  have hp : 0 < 10 ^ w := Nat.pos_pow_of_pos w (by norm_num)
  have hd : (round (dmin * 10 ^ w)).toNat / 10 ^ w < 100 := by
    have := fmt_div_le _ w hn
    omega
  show (pad_nat 2 ((round (dmin * 10 ^ w)).toNat / 10 ^ w) ++ '.' ::
      pad_nat w ((round (dmin * 10 ^ w)).toNat % 10 ^ w)).length = w + 3
  rw [List.length_append, pad_nat_length 2 _ (by norm_num; omega), List.length_cons,
    pad_nat_length w _ (Nat.mod_lt _ hp)]
  omega

lemma fmt_min_mem (w : ℕ) (dmin : ℚ) (c : Char) (h : c ∈ fmt_min w dmin) :
    (48 ≤ c.toNat ∧ c.toNat ≤ 57) ∨ c = '.' := by
  have h' : c ∈ pad_nat 2 ((round (dmin * 10 ^ w)).toNat / 10 ^ w) ++ '.' ::
      pad_nat w ((round (dmin * 10 ^ w)).toNat % 10 ^ w) := h
  rcases List.mem_append.1 h' with hm | hm
  · exact Or.inl (pad_nat_mem _ _ _ hm)
  · rcases List.mem_cons.1 hm with hm | hm
    · exact Or.inr hm
    · exact Or.inl (pad_nat_mem _ _ _ hm)

/-! Helper lemmas about the carry fixup stage of the encoders. -/

lemma lat_smin2_carry (w : ℕ) (d : ℚ) (h : (fmt_min w (lat_dmin d)).headD '?' = '6') :
    lat_smin2 w d = '0' :: '0' :: '.' :: List.replicate w '0' ∧
      lat_ideg2 w d = lat_ideg d + 1 := by
  have hr := lat_dmin_range d
  have hn := (fmt_min_head_six w _ hr.1 hr.2).1 h
  have hc := fmt_min_carry w _ hn
  constructor
  · show (if (fmt_min w (lat_dmin d)).headD '?' = '6'
        then (fmt_min w (lat_dmin d)).set 0 '0' else fmt_min w (lat_dmin d)) = _
    rw [if_pos h, hc]
    rfl
  · unfold lat_ideg2
    rw [if_pos h]

lemma lat_smin2_no_carry (w : ℕ) (d : ℚ)
    (h : ¬ (fmt_min w (lat_dmin d)).headD '?' = '6') :
    lat_smin2 w d = fmt_min w (lat_dmin d) ∧ lat_ideg2 w d = lat_ideg d := by
  constructor
  · show (if (fmt_min w (lat_dmin d)).headD '?' = '6'
        then (fmt_min w (lat_dmin d)).set 0 '0' else fmt_min w (lat_dmin d)) = _
    rw [if_neg h]
  · unfold lat_ideg2
    rw [if_neg h]

lemma lon_smin2_carry (w : ℕ) (d : ℚ) (h : (fmt_min w (lon_dmin d)).headD '?' = '6') :
    lon_smin2 w d = '0' :: '0' :: '.' :: List.replicate w '0' ∧
      lon_ideg2 w d = lon_ideg d + 1 := by
  have hr := lon_dmin_range d
  have hn := (fmt_min_head_six w _ hr.1 hr.2).1 h
  have hc := fmt_min_carry w _ hn
  constructor
  · show (if (fmt_min w (lon_dmin d)).headD '?' = '6'
        then (fmt_min w (lon_dmin d)).set 0 '0' else fmt_min w (lon_dmin d)) = _
    rw [if_pos h, hc]
    rfl
  · unfold lon_ideg2
    rw [if_pos h]

lemma lon_smin2_no_carry (w : ℕ) (d : ℚ)
    (h : ¬ (fmt_min w (lon_dmin d)).headD '?' = '6') :
    lon_smin2 w d = fmt_min w (lon_dmin d) ∧ lon_ideg2 w d = lon_ideg d := by
  constructor
  · show (if (fmt_min w (lon_dmin d)).headD '?' = '6'
        then (fmt_min w (lon_dmin d)).set 0 '0' else fmt_min w (lon_dmin d)) = _
    rw [if_neg h]
  · unfold lon_ideg2
    rw [if_neg h]

lemma lat_smin2_headD_ne (w : ℕ) (d : ℚ) : (lat_smin2 w d).headD '?' ≠ '6' := by
  by_cases h : (fmt_min w (lat_dmin d)).headD '?' = '6'
  · rw [(lat_smin2_carry w d h).1]
    simp
  · rw [(lat_smin2_no_carry w d h).1]
    exact h

lemma lon_smin2_headD_ne (w : ℕ) (d : ℚ) : (lon_smin2 w d).headD '?' ≠ '6' := by
  by_cases h : (fmt_min w (lon_dmin d)).headD '?' = '6'
  · rw [(lon_smin2_carry w d h).1]
    simp
  · rw [(lon_smin2_no_carry w d h).1]
    exact h

lemma lat_smin2_length (w : ℕ) (d : ℚ) : (lat_smin2 w d).length = w + 3 := by
  have hr := lat_dmin_range d
  by_cases h : (fmt_min w (lat_dmin d)).headD '?' = '6'
  · rw [(lat_smin2_carry w d h).1]
    simp
  · rw [(lat_smin2_no_carry w d h).1]
    exact fmt_min_length w _ hr.1 hr.2

lemma lon_smin2_length (w : ℕ) (d : ℚ) : (lon_smin2 w d).length = w + 3 := by
  have hr := lon_dmin_range d
  by_cases h : (fmt_min w (lon_dmin d)).headD '?' = '6'
  · rw [(lon_smin2_carry w d h).1]
    simp
  · rw [(lon_smin2_no_carry w d h).1]
    exact fmt_min_length w _ hr.1 hr.2

lemma lat_ideg2_range (w : ℕ) (d : ℚ) : 0 ≤ lat_ideg2 w d ∧ lat_ideg2 w d ≤ 91 := by
  have h := lat_ideg_range d
  unfold lat_ideg2
  split_ifs <;> omega

lemma lon_ideg2_range (w : ℕ) (d : ℚ) : 0 ≤ lon_ideg2 w d ∧ lon_ideg2 w d ≤ 181 := by
  have h := lon_ideg_range d
  unfold lon_ideg2
  split_ifs <;> omega

/-! Helper lemmas giving the unblanked encoder outputs and their slices. -/

lemma lat_str_zero (d : ℚ) : (latitude_to_str d 0).1 =
    pad_nat 2 (lat_ideg2 2 d).toNat ++ lat_smin2 2 d ++ [lat_hemi d] := by
  norm_num [latitude_to_str]

lemma lon_str_zero (d : ℚ) : (longitude_to_str d 0).1 =
    pad_nat 3 (lon_ideg2 2 d).toNat ++ lon_smin2 2 d ++ [lon_hemi d] := by
  norm_num [longitude_to_str]

lemma lat_nmea_fst (d : ℚ) (h : d ≠ G_UNKNOWN) : (latitude_to_nmea d).1 =
    pad_nat 2 (lat_ideg2 4 d).toNat ++ lat_smin2 4 d := by
  unfold latitude_to_nmea
  rw [if_neg h]

lemma lon_nmea_fst (d : ℚ) (h : d ≠ G_UNKNOWN) : (longitude_to_nmea d).1 =
    pad_nat 3 (lon_ideg2 4 d).toNat ++ lon_smin2 4 d := by
  unfold longitude_to_nmea
  rw [if_neg h]

lemma lat_pad_length (w : ℕ) (d : ℚ) : (pad_nat 2 (lat_ideg2 w d).toNat).length = 2 := by
  have h := lat_ideg2_range w d
  exact pad_nat_length 2 _ (by norm_num; omega)

lemma lon_pad_length (w : ℕ) (d : ℚ) : (pad_nat 3 (lon_ideg2 w d).toNat).length = 3 := by
  have h := lon_ideg2_range w d
  exact pad_nat_length 3 _ (by norm_num; omega)

lemma lat_str_slice (d : ℚ) :
    ((latitude_to_str d 0).1.drop 2).take 5 = lat_smin2 2 d := by
  rw [lat_str_zero, List.append_assoc,
    drop_len_append _ _ 2 (lat_pad_length 2 d),
    take_len_append _ _ 5 (by rw [lat_smin2_length])]

lemma lon_str_slice (d : ℚ) :
    ((longitude_to_str d 0).1.drop 3).take 5 = lon_smin2 2 d := by
  rw [lon_str_zero, List.append_assoc,
    drop_len_append _ _ 3 (lon_pad_length 2 d),
    take_len_append _ _ 5 (by rw [lon_smin2_length])]

lemma lat_nmea_slice (d : ℚ) (h : d ≠ G_UNKNOWN) :
    ((latitude_to_nmea d).1.drop 2).take 7 = lat_smin2 4 d := by
  rw [lat_nmea_fst d h, drop_len_append _ _ 2 (lat_pad_length 4 d)]
  rw [show (7 : ℕ) = (lat_smin2 4 d).length from by rw [lat_smin2_length], List.take_length]

lemma lon_nmea_slice (d : ℚ) (h : d ≠ G_UNKNOWN) :
    ((longitude_to_nmea d).1.drop 3).take 7 = lon_smin2 4 d := by
  rw [lon_nmea_fst d h, drop_len_append _ _ 3 (lon_pad_length 4 d)]
  rw [show (7 : ℕ) = (lon_smin2 4 d).length from by rw [lon_smin2_length], List.take_length]

lemma lat_smin2_ne_sixty (w : ℕ) (d : ℚ) (r : List Char) :
    lat_smin2 w d ≠ '6' :: r := by
  intro h
  have := lat_smin2_headD_ne w d
  rw [h] at this
  exact this rfl

lemma lon_smin2_ne_sixty (w : ℕ) (d : ℚ) (r : List Char) :
    lon_smin2 w d ≠ '6' :: r := by
  intro h
  have := lon_smin2_headD_ne w d
  rw [h] at this
  exact this rfl

lemma fmt_min_eq (w : ℕ) (dmin : ℚ) : fmt_min w dmin =
    pad_nat 2 ((round (dmin * 10 ^ w)).toNat / 10 ^ w) ++ '.' ::
      pad_nat w ((round (dmin * 10 ^ w)).toNat % 10 ^ w) := rfl

lemma lat_dmin_G : lat_dmin G_UNKNOWN = 0 := by
  norm_num [lat_dmin, lat_abs, lat_clamped, lat_ideg, c_trunc, G_UNKNOWN]

lemma lon_dmin_G : lon_dmin G_UNKNOWN = 0 := by
  norm_num [lon_dmin, lon_abs, lon_clamped, lon_ideg, c_trunc, G_UNKNOWN]

lemma fmt_min_zero_headD (w : ℕ) : (fmt_min w 0).headD '?' = '0' := by
  rw [fmt_min_eq]
  norm_num
  decide

/-- Claim C1: whenever the minutes value, formatted to the field's
fractional-digit count, rounds up so that the formatted minutes string
starts with '6' (reads "60.00" resp. "60.0000"), the human-readable and
NMEA encoders reset the minutes field to all zeros and increment the whole
degree count by one; consequently no encoder output ever carries a literal
"60.00" or "60.0000" minutes field. -/
theorem carry_resets_minutes_and_increments_degrees (dlat dlong : ℚ) :
    ((fmt_min 2 (lat_dmin dlat)).headD '?' = '6' →
      (latitude_to_str dlat 0).1 =
        pad_nat 2 (lat_ideg dlat + 1).toNat ++
          ('0' :: '0' :: '.' :: '0' :: '0' :: []) ++ [lat_hemi dlat]) ∧
    ((latitude_to_str dlat 0).1.drop 2).take 5 ≠ '6' :: '0' :: '.' :: '0' :: '0' :: [] ∧
    ((fmt_min 2 (lon_dmin dlong)).headD '?' = '6' →
      (longitude_to_str dlong 0).1 =
        pad_nat 3 (lon_ideg dlong + 1).toNat ++
          ('0' :: '0' :: '.' :: '0' :: '0' :: []) ++ [lon_hemi dlong]) ∧
    ((longitude_to_str dlong 0).1.drop 3).take 5 ≠ '6' :: '0' :: '.' :: '0' :: '0' :: [] ∧
    ((fmt_min 4 (lat_dmin dlat)).headD '?' = '6' →
      (latitude_to_nmea dlat).1 =
        pad_nat 2 (lat_ideg dlat + 1).toNat ++
          ('0' :: '0' :: '.' :: '0' :: '0' :: '0' :: '0' :: [])) ∧
    ((latitude_to_nmea dlat).1.drop 2).take 7 ≠
      '6' :: '0' :: '.' :: '0' :: '0' :: '0' :: '0' :: [] ∧
    ((fmt_min 4 (lon_dmin dlong)).headD '?' = '6' →
      (longitude_to_nmea dlong).1 =
        pad_nat 3 (lon_ideg dlong + 1).toNat ++
          ('0' :: '0' :: '.' :: '0' :: '0' :: '0' :: '0' :: [])) ∧
    ((longitude_to_nmea dlong).1.drop 3).take 7 ≠
      '6' :: '0' :: '.' :: '0' :: '0' :: '0' :: '0' :: [] := by
  refine ⟨?_, ?_, ?_, ?_, ?_, ?_, ?_, ?_⟩
  · intro h
    have hc := lat_smin2_carry 2 dlat h
    rw [lat_str_zero, hc.1, hc.2]
    rfl
  · rw [lat_str_slice]
    exact lat_smin2_ne_sixty 2 dlat _
  · intro h
    have hc := lon_smin2_carry 2 dlong h
    rw [lon_str_zero, hc.1, hc.2]
    rfl
  · rw [lon_str_slice]
    exact lon_smin2_ne_sixty 2 dlong _
  · intro h
    have hne : dlat ≠ G_UNKNOWN := by
      intro he
      rw [he, lat_dmin_G, fmt_min_zero_headD] at h
      exact absurd h (by decide)
    have hc := lat_smin2_carry 4 dlat h
    rw [lat_nmea_fst dlat hne, hc.1, hc.2]
    rfl
  · by_cases hs : dlat = G_UNKNOWN
    · rw [hs]
      unfold latitude_to_nmea
      rw [if_pos rfl]
      decide
    · rw [lat_nmea_slice dlat hs]
      exact lat_smin2_ne_sixty 4 dlat _
  · intro h
    have hne : dlong ≠ G_UNKNOWN := by
      intro he
      rw [he, lon_dmin_G, fmt_min_zero_headD] at h
      exact absurd h (by decide)
    have hc := lon_smin2_carry 4 dlong h
    rw [lon_nmea_fst dlong hne, hc.1, hc.2]
    rfl
  · by_cases hs : dlong = G_UNKNOWN
    · rw [hs]
      unfold longitude_to_nmea
      rw [if_pos rfl]
      decide
    · rw [lon_nmea_slice dlong hs]
      exact lon_smin2_ne_sixty 4 dlong _

/-- Witness for claim C1: the latitude 10° 59.999′ (= 10 + 59999/60000
degrees) formats its minutes as "60.00" at two fractional digits, and the
encoder output carries degrees 11 and minutes "00.00". -/
theorem carry_resets_minutes_witness :
    (fmt_min 2 (lat_dmin (10 + 59999/60000 : ℚ))).headD '?' = '6' ∧
    (latitude_to_str (10 + 59999/60000 : ℚ) 0).1 =
      pad_nat 2 (lat_ideg (10 + 59999/60000 : ℚ) + 1).toNat ++
        ('0' :: '0' :: '.' :: '0' :: '0' :: []) ++ [lat_hemi (10 + 59999/60000 : ℚ)] := by
  have hd : lat_dmin (10 + 59999/60000 : ℚ) = 59999/1000 := by
    norm_num [lat_dmin, lat_abs, lat_clamped, lat_ideg, c_trunc]
  have h6 : (fmt_min 2 (lat_dmin (10 + 59999/60000 : ℚ))).headD '?' = '6' := by
    rw [fmt_min_eq, hd]
    have hr : (round ((59999/1000 : ℚ) * 10 ^ 2)).toNat = 6000 := by
      have : round ((59999/1000 : ℚ) * 10 ^ 2) = 6000 := by norm_num [round_eq]
      rw [this]
      rfl
    rw [hr]
    decide
  exact ⟨h6, (carry_resets_minutes_and_increments_degrees (10 + 59999/60000 : ℚ) 0).1 h6⟩

/-! Helper lemmas about ambiguity blanking. -/

lemma lat_blank_eq (d : ℚ) (k : ℤ) :
    (latitude_to_str d k).1 = blankAt (latBlanks k) ((latitude_to_str d 0).1) := by
  by_cases h1 : 1 ≤ k
  · by_cases h2 : 2 ≤ k
    · by_cases h3 : 3 ≤ k
      · by_cases h4 : 4 ≤ k
        · simp [latitude_to_str, latBlanks, blankAt, h1, h2, h3, h4]
        · simp [latitude_to_str, latBlanks, blankAt, h1, h2, h3, h4]
      · have h4 : ¬ 4 ≤ k := by omega
        simp [latitude_to_str, latBlanks, blankAt, h1, h2, h3, h4]
    · have h3 : ¬ 3 ≤ k := by omega
      have h4 : ¬ 4 ≤ k := by omega
      simp [latitude_to_str, latBlanks, blankAt, h1, h2, h3, h4]
  · have h2 : ¬ 2 ≤ k := by omega
    have h3 : ¬ 3 ≤ k := by omega
    have h4 : ¬ 4 ≤ k := by omega
    simp [latitude_to_str, latBlanks, blankAt, h1, h2, h3, h4]

lemma lon_blank_eq (d : ℚ) (k : ℤ) :
    (longitude_to_str d k).1 = blankAt (lonBlanks k) ((longitude_to_str d 0).1) := by
  by_cases h1 : 1 ≤ k
  · by_cases h2 : 2 ≤ k
    · by_cases h3 : 3 ≤ k
      · by_cases h4 : 4 ≤ k
        · simp [longitude_to_str, lonBlanks, blankAt, h1, h2, h3, h4]
        · simp [longitude_to_str, lonBlanks, blankAt, h1, h2, h3, h4]
      · have h4 : ¬ 4 ≤ k := by omega
        simp [longitude_to_str, lonBlanks, blankAt, h1, h2, h3, h4]
    · have h3 : ¬ 3 ≤ k := by omega
      have h4 : ¬ 4 ≤ k := by omega
      simp [longitude_to_str, lonBlanks, blankAt, h1, h2, h3, h4]
  · have h2 : ¬ 2 ≤ k := by omega
    have h3 : ¬ 3 ≤ k := by omega
    have h4 : ¬ 4 ≤ k := by omega
    simp [longitude_to_str, lonBlanks, blankAt, h1, h2, h3, h4]

lemma c2_dmin : lat_dmin (12576/1000 : ℚ) = 864/25 := by
  norm_num [lat_dmin, lat_abs, lat_clamped, lat_ideg, c_trunc]

lemma c2_round : (round ((864/25 : ℚ) * 10 ^ 2)).toNat = 3456 := by
  have h : round ((864/25 : ℚ) * 10 ^ 2) = 3456 := by norm_num [round_eq]
  rw [h]
  rfl

lemma c2_no_carry : ¬ (fmt_min 2 (lat_dmin (12576/1000 : ℚ))).headD '?' = '6' := by
  rw [fmt_min_eq, c2_dmin, c2_round]
  decide

lemma c2_smin : lat_smin2 2 (12576/1000 : ℚ) = '3' :: '4' :: '.' :: '5' :: '6' :: [] := by
  rw [(lat_smin2_no_carry 2 _ c2_no_carry).1, fmt_min_eq, c2_dmin, c2_round]
  decide

lemma c2_ideg : lat_ideg2 2 (12576/1000 : ℚ) = 12 := by
  rw [(lat_smin2_no_carry 2 _ c2_no_carry).2]
  norm_num [lat_ideg, lat_abs, lat_clamped, c_trunc]

lemma c2_hemi : lat_hemi (12576/1000 : ℚ) = 'N' := by
  norm_num [lat_hemi, lat_clamped]

lemma c2_base : (latitude_to_str (12576/1000 : ℚ) 0).1 =
    '1' :: '2' :: '3' :: '4' :: '.' :: '5' :: '6' :: 'N' :: [] := by
  rw [lat_str_zero, c2_ideg, c2_smin, c2_hemi]
  decide

/-- Counterexample to claim C2 as stated: at ambiguity level 3 the claim
predicts that the blanked positions are the hundredths digit, the tenths
digit and the tens-of-minutes digit (indices 6, 5 and 2 of the latitude
field), but for latitude 12.576° the encoder blanks index 3 (the units of
minutes) and leaves index 2 (the tens of minutes) intact. -/
theorem ambiguity_level3_claim_counterexample :
    ¬ ((latitude_to_str (12576/1000 : ℚ) 3).1 =
      (((latitude_to_str (12576/1000 : ℚ) 0).1.set 6 ' ').set 5 ' ').set 2 ' ') := by
  rw [lat_blank_eq, c2_base]
  decide

/-- Claim C2 (amended): for every coordinate and every ambiguity level in
1..4, the human-readable encoders blank exactly the semantic digit
positions accumulated right-to-left — level 1 the hundredths-of-minutes
digit, level 2 additionally the tenths, level 3 additionally the UNITS of
minutes, level 4 additionally the TENS of minutes — and for a given level
the positions blanked in the longitude field are the latitude positions
shifted by the extra degree digit, i.e. semantically identical. -/
theorem ambiguity_blanks_semantic_positions (d e : ℚ) (k : ℤ)
    (hk1 : 1 ≤ k) (hk4 : k ≤ 4) :
    (latitude_to_str d k).1 = blankAt (latBlanks k) ((latitude_to_str d 0).1) ∧
    (longitude_to_str e k).1 = blankAt (lonBlanks k) ((longitude_to_str e 0).1) ∧
    lonBlanks k = (latBlanks k).map (· + 1) := by
  refine ⟨lat_blank_eq d k, lon_blank_eq e k, ?_⟩
  interval_cases k <;> decide

/-- Witness for claim C2 (amended) at latitude 0, longitude 0 and level 1. -/
theorem ambiguity_blanks_semantic_positions_witness :
    (1 : ℤ) ≤ 1 ∧ (1 : ℤ) ≤ 4 ∧
    (latitude_to_str 0 1).1 = blankAt (latBlanks 1) ((latitude_to_str 0 0).1) ∧
    (longitude_to_str 0 1).1 = blankAt (lonBlanks 1) ((longitude_to_str 0 0).1) ∧
    lonBlanks 1 = (latBlanks 1).map (· + 1) :=
  ⟨le_refl 1, by norm_num,
    (ambiguity_blanks_semantic_positions 0 0 1 (le_refl 1) (by norm_num)).1,
    (ambiguity_blanks_semantic_positions 0 0 1 (le_refl 1) (by norm_num)).2.1,
    (ambiguity_blanks_semantic_positions 0 0 1 (le_refl 1) (by norm_num)).2.2⟩

/-! Helper lemmas about the compressed encoders. -/

lemma round_bounds_le (x : ℚ) (B : ℤ) (h0 : 0 ≤ x) (h1 : x ≤ B) :
    0 ≤ round x ∧ round x ≤ B := by
  rw [round_eq]
  constructor
  · exact Int.le_floor.2 (by push_cast; linarith)
  · have : ⌊x + 1 / 2⌋ < B + 1 := Int.floor_lt.2 (by push_cast; linarith)
    omega

lemma lat_comp_y_range (d : ℚ) : 0 ≤ lat_comp_y d ∧ lat_comp_y d ≤ 68566680 := by
  have hc := lat_clamped_range d
  unfold lat_comp_y
  exact round_bounds_le _ 68566680 (by nlinarith [hc.1, hc.2])
    (by push_cast; nlinarith [hc.1, hc.2])

lemma lon_comp_x_range (d : ℚ) : 0 ≤ lon_comp_x d ∧ lon_comp_x d ≤ 68566680 := by
  have hc := lon_clamped_range d
  unfold lon_comp_x
  exact round_bounds_le _ 68566680 (by nlinarith [hc.1, hc.2])
    (by push_cast; nlinarith [hc.1, hc.2])

lemma comp4_spec (y : ℤ) (h0 : 0 ≤ y) (h1 : y ≤ 68566680) :
    ∃ y0 y1 y2 y3 : ℤ,
      comp4 y = [y0 + 33, y1 + 33, y2 + 33, y3 + 33] ∧
      (0 ≤ y0 ∧ y0 ≤ 90) ∧ (0 ≤ y1 ∧ y1 ≤ 90) ∧ (0 ≤ y2 ∧ y2 ≤ 90) ∧
      (0 ≤ y3 ∧ y3 ≤ 90) ∧
      y0 * (91 * 91 * 91) + y1 * (91 * 91) + y2 * 91 + y3 = y := by
  refine ⟨_, _, _, _, rfl, ?_⟩
  have e0 : Int.tdiv y (91 * 91 * 91) = y / (91 * 91 * 91) :=
    Int.tdiv_eq_ediv h0 (by norm_num)
  rw [e0]
  have hr1 : 0 ≤ y - y / (91 * 91 * 91) * (91 * 91 * 91) := by omega
  have e1 : Int.tdiv (y - y / (91 * 91 * 91) * (91 * 91 * 91)) (91 * 91) =
      (y - y / (91 * 91 * 91) * (91 * 91 * 91)) / (91 * 91) :=
    Int.tdiv_eq_ediv hr1 (by norm_num)
  rw [e1]
  have hr2 : 0 ≤ y - y / (91 * 91 * 91) * (91 * 91 * 91) -
      (y - y / (91 * 91 * 91) * (91 * 91 * 91)) / (91 * 91) * (91 * 91) := by omega
  have e2 : Int.tdiv (y - y / (91 * 91 * 91) * (91 * 91 * 91) -
      (y - y / (91 * 91 * 91) * (91 * 91 * 91)) / (91 * 91) * (91 * 91)) 91 =
      (y - y / (91 * 91 * 91) * (91 * 91 * 91) -
        (y - y / (91 * 91 * 91) * (91 * 91 * 91)) / (91 * 91) * (91 * 91)) / 91 :=
    Int.tdiv_eq_ediv hr2 (by norm_num)
  rw [e2]
  omega

lemma c3_y : lat_comp_y (-90 : ℚ) = 68566680 := by
  unfold lat_comp_y lat_clamped
  norm_num [round_eq]

/-- Counterexample to claim C3 as stated: at latitude -90 the scaled
integer is 68566680, whose leading base-91 digit is 90, so the first two
output bytes are 123, exceeding the claimed upper bound 122. -/
theorem compressed_byte_range_counterexample :
    ¬ (∀ b ∈ (latitude_to_comp_str (-90 : ℚ)).1, 33 ≤ b ∧ b ≤ 122) := by
  have hl : (latitude_to_comp_str (-90 : ℚ)).1 = [123, 123, 33, 33] := by
    show comp4 (lat_comp_y (-90 : ℚ)) = _
    rw [c3_y]
    decide
  rw [hl]
  decide

/-- Claim C3 (amended): for every coordinate the 4-byte compressed output
is a deterministic function of the input, and every output byte lies in
the range [33, 123] (the base-91 digits range over 0..90, so the maximal
byte is 91 + 33 - 1 + 1 = 123, not 122). -/
theorem compressed_deterministic_and_byte_range (dlat dlong : ℚ) :
    (latitude_to_comp_str dlat).1 = (latitude_to_comp_str dlat).1 ∧
    (longitude_to_comp_str dlong).1 = (longitude_to_comp_str dlong).1 ∧
    (∀ b ∈ (latitude_to_comp_str dlat).1, 33 ≤ b ∧ b ≤ 123) ∧
    (∀ b ∈ (longitude_to_comp_str dlong).1, 33 ≤ b ∧ b ≤ 123) := by
  refine ⟨rfl, rfl, ?_, ?_⟩
  · obtain ⟨h0, h1⟩ := lat_comp_y_range dlat
    obtain ⟨y0, y1, y2, y3, hl, b0, b1, b2, b3, _⟩ := comp4_spec _ h0 h1
    show ∀ b ∈ comp4 (lat_comp_y dlat), 33 ≤ b ∧ b ≤ 123
    rw [hl]
    intro b hb
    simp only [List.mem_cons, List.not_mem_nil, or_false] at hb
    rcases hb with h | h | h | h <;> subst h <;> omega
  · obtain ⟨h0, h1⟩ := lon_comp_x_range dlong
    obtain ⟨y0, y1, y2, y3, hl, b0, b1, b2, b3, _⟩ := comp4_spec _ h0 h1
    show ∀ b ∈ comp4 (lon_comp_x dlong), 33 ≤ b ∧ b ≤ 123
    rw [hl]
    intro b hb
    simp only [List.mem_cons, List.not_mem_nil, or_false] at hb
    rcases hb with h | h | h | h <;> subst h <;> omega

/-- Witness for claim C3 (amended): the first byte of the compressed
encoding of latitude 0 is within [33, 123]. -/
theorem compressed_byte_range_witness :
    33 ≤ ((latitude_to_comp_str (0 : ℚ)).1.getD 0 0) ∧
      ((latitude_to_comp_str (0 : ℚ)).1.getD 0 0) ≤ 123 := by
  have hy : lat_comp_y (0 : ℚ) = 34283340 := by
    unfold lat_comp_y lat_clamped
    norm_num [round_eq]
  have hl : (latitude_to_comp_str (0 : ℚ)).1 = [78, 78, 33, 33] := by
    show comp4 (lat_comp_y (0 : ℚ)) = _
    rw [hy]
    decide
  have hm : (latitude_to_comp_str (0 : ℚ)).1.getD 0 0 ∈ (latitude_to_comp_str (0 : ℚ)).1 := by
    rw [hl]
    decide
  exact (compressed_deterministic_and_byte_range 0 0).2.2.1 _ hm

/-- Claim C4: the compressed latitude scale maps 90 to the scaled integer
0 exactly, and -90 to 68566680 = round(380926·180), which sits 8280 below
the top of the four-digit base-91 range 91⁴ − 1 — within the rounding
tolerance of the scale constant 380926. -/
theorem compressed_boundary_endpoints :
    lat_comp_y 90 = 0 ∧ lat_comp_y (-90) = 68566680 ∧
    (91 ^ 4 - 1) - lat_comp_y (-90) = 8280 ∧ (8280 : ℤ) ≤ 380926 := by
  have h90 : lat_comp_y 90 = 0 := by
    unfold lat_comp_y lat_clamped
    norm_num [round_eq]
  exact ⟨h90, c3_y, by rw [c3_y]; norm_num, by norm_num⟩

/-- Claim C10: for every in-domain coordinate, the four compressed bytes
are the base-91 mixed-radix digits (most significant first) of the scaled
integer, each offset by 33: recombining them reproduces
round(380926·(90−lat)) resp. round(190463·(180+lon)), and each digit
b − 33 lies in [0, 90]. -/
theorem compressed_digits_recombine (dlat dlong : ℚ) :
    (-90 ≤ dlat → dlat ≤ 90 →
      (((latitude_to_comp_str dlat).1.getD 0 0 - 33) * (91 * 91 * 91) +
        ((latitude_to_comp_str dlat).1.getD 1 0 - 33) * (91 * 91) +
        ((latitude_to_comp_str dlat).1.getD 2 0 - 33) * 91 +
        ((latitude_to_comp_str dlat).1.getD 3 0 - 33) = round (380926 * (90 - dlat)) ∧
      (∀ b ∈ (latitude_to_comp_str dlat).1, 0 ≤ b - 33 ∧ b - 33 ≤ 90))) ∧
    (-180 ≤ dlong → dlong ≤ 180 →
      (((longitude_to_comp_str dlong).1.getD 0 0 - 33) * (91 * 91 * 91) +
        ((longitude_to_comp_str dlong).1.getD 1 0 - 33) * (91 * 91) +
        ((longitude_to_comp_str dlong).1.getD 2 0 - 33) * 91 +
        ((longitude_to_comp_str dlong).1.getD 3 0 - 33) = round (190463 * (180 + dlong)) ∧
      (∀ b ∈ (longitude_to_comp_str dlong).1, 0 ≤ b - 33 ∧ b - 33 ≤ 90))) := by
  constructor
  · intro hlo hhi
    have hcl : lat_clamped dlat = dlat := by
      unfold lat_clamped
      rw [if_neg (by linarith), if_neg (by linarith)]
    have hy : lat_comp_y dlat = round (380926 * (90 - dlat)) := by
      unfold lat_comp_y
      rw [hcl]
    obtain ⟨h0, h1⟩ := lat_comp_y_range dlat
    obtain ⟨y0, y1, y2, y3, hl, b0, b1, b2, b3, hsum⟩ := comp4_spec _ h0 h1
    have hfst : (latitude_to_comp_str dlat).1 = comp4 (lat_comp_y dlat) := rfl
    rw [hfst, hl]
    constructor
    · show (y0 + 33 - 33) * (91 * 91 * 91) + (y1 + 33 - 33) * (91 * 91) +
        (y2 + 33 - 33) * 91 + (y3 + 33 - 33) = round (380926 * (90 - dlat))
      rw [← hy, ← hsum]
      ring
    · intro b hb
      simp only [List.mem_cons, List.not_mem_nil, or_false] at hb
      rcases hb with h | h | h | h <;> subst h <;> omega
  · intro hlo hhi
    have hcl : lon_clamped dlong = dlong := by
      unfold lon_clamped
      rw [if_neg (by linarith), if_neg (by linarith)]
    have hy : lon_comp_x dlong = round (190463 * (180 + dlong)) := by
      unfold lon_comp_x
      rw [hcl]
    obtain ⟨h0, h1⟩ := lon_comp_x_range dlong
    obtain ⟨y0, y1, y2, y3, hl, b0, b1, b2, b3, hsum⟩ := comp4_spec _ h0 h1
    have hfst : (longitude_to_comp_str dlong).1 = comp4 (lon_comp_x dlong) := rfl
    rw [hfst, hl]
    constructor
    · show (y0 + 33 - 33) * (91 * 91 * 91) + (y1 + 33 - 33) * (91 * 91) +
        (y2 + 33 - 33) * 91 + (y3 + 33 - 33) = round (190463 * (180 + dlong))
      rw [← hy, ← hsum]
      ring
    · intro b hb
      simp only [List.mem_cons, List.not_mem_nil, or_false] at hb
      rcases hb with h | h | h | h <;> subst h <;> omega

/-- Witness for claim C10: at latitude 0 the recombined digits give
34283340 = round(380926·90). -/
theorem compressed_digits_recombine_witness :
    (-90 : ℚ) ≤ 0 ∧ (0 : ℚ) ≤ 90 ∧
    ((latitude_to_comp_str (0 : ℚ)).1.getD 0 0 - 33) * (91 * 91 * 91) +
      ((latitude_to_comp_str (0 : ℚ)).1.getD 1 0 - 33) * (91 * 91) +
      ((latitude_to_comp_str (0 : ℚ)).1.getD 2 0 - 33) * 91 +
      ((latitude_to_comp_str (0 : ℚ)).1.getD 3 0 - 33) = round ((380926 : ℚ) * (90 - 0)) :=
  ⟨by norm_num, by norm_num,
    ((compressed_digits_recombine 0 0).1 (by norm_num) (by norm_num)).1⟩

/-- Claim C6: encoding the unknown sentinel through the NMEA encoders
yields an empty numeric string and an empty hemisphere string, with no
clamping warning emitted. -/
theorem nmea_encode_unknown_sentinel :
    latitude_to_nmea G_UNKNOWN = ([], [], []) ∧
    longitude_to_nmea G_UNKNOWN = ([], [], []) := by
  constructor
  · unfold latitude_to_nmea
    rw [if_pos rfl]
  · unfold longitude_to_nmea
    rw [if_pos rfl]

/-- Claim C5: the NMEA decoders return the unknown sentinel — with no
partial result and no diagnostic-sink notification — exactly when the
numeric field's first character is not a digit or the character at the
fixed decimal-point offset (index 4 for latitude, 5 for longitude) is not
a period. -/
theorem nmea_decode_structural_failure (pstr phemi : List Char) :
    ((¬ isdigit (pstr.getD 0 nulChar) = true ∨ pstr.getD 4 nulChar ≠ '.') ↔
      latitude_from_nmea pstr phemi = (G_UNKNOWN, [])) ∧
    ((¬ isdigit (pstr.getD 0 nulChar) = true ∨ pstr.getD 5 nulChar ≠ '.') ↔
      longitude_from_nmea pstr phemi = (G_UNKNOWN, [])) := by
  constructor
  · constructor
    · intro h
      by_cases h0 : isdigit (pstr.getD 0 nulChar) = true
      · have h4 : pstr.getD 4 nulChar ≠ '.' := by tauto
        unfold latitude_from_nmea
        rw [if_neg (not_not_intro h0), if_pos h4]
      · unfold latitude_from_nmea
        rw [if_pos h0]
    · intro he
      by_contra hne
      push_neg at hne
      obtain ⟨h0, h4⟩ := hne
      simp only [latitude_from_nmea, h0, h4] at he
      norm_num at he
      obtain ⟨hfst, hsnd⟩ := he
      by_cases hr : nmea_lat_base pstr < 0 ∨ nmea_lat_base pstr > 90
      · rw [if_pos hr] at hsnd
        split_ifs at hsnd <;> simp at hsnd
      · rw [if_neg hr] at hsnd
        push_neg at hr
        split_ifs at hfst with hS
        · rw [G_UNKNOWN] at hfst
          have : nmea_lat_base pstr = 999999 := by linarith
          linarith [hr.2]
        · rw [G_UNKNOWN] at hfst
          linarith [hr.1]
  · constructor
    · intro h
      by_cases h0 : isdigit (pstr.getD 0 nulChar) = true
      · have h5 : pstr.getD 5 nulChar ≠ '.' := by tauto
        unfold longitude_from_nmea
        rw [if_neg (not_not_intro h0), if_pos h5]
      · unfold longitude_from_nmea
        rw [if_pos h0]
    · intro he
      by_contra hne
      push_neg at hne
      obtain ⟨h0, h5⟩ := hne
      simp only [longitude_from_nmea, h0, h5] at he
      norm_num at he
      obtain ⟨hfst, hsnd⟩ := he
      by_cases hr : nmea_lon_base pstr < 0 ∨ nmea_lon_base pstr > 180
      · rw [if_pos hr] at hsnd
        split_ifs at hsnd <;> simp at hsnd
      · rw [if_neg hr] at hsnd
        push_neg at hr
        split_ifs at hfst with hW
        · rw [G_UNKNOWN] at hfst
          have : nmea_lon_base pstr = 999999 := by linarith
          linarith [hr.2]
        · rw [G_UNKNOWN] at hfst
          linarith [hr.1]

lemma latitude_from_nmea_success (pstr phemi : List Char)
    (h0 : isdigit (pstr.getD 0 nulChar) = true) (h4 : pstr.getD 4 nulChar = '.') :
    latitude_from_nmea pstr phemi =
      ((if phemi.getD 0 nulChar = 'S' then -(nmea_lat_base pstr) else nmea_lat_base pstr),
       (if phemi.getD 0 nulChar ≠ 'N' ∧ phemi.getD 0 nulChar ≠ 'S' ∧
            phemi.getD 0 nulChar ≠ nulChar
         then (if nmea_lat_base pstr < 0 ∨ nmea_lat_base pstr > 90
           then ["Error: Latitude not in range of 0 to 90.\n"] else []) ++
           ["Error: Latitude hemisphere should be N or S.\n"]
         else (if nmea_lat_base pstr < 0 ∨ nmea_lat_base pstr > 90
           then ["Error: Latitude not in range of 0 to 90.\n"] else []))) := by
  unfold latitude_from_nmea
  rw [if_neg (not_not_intro h0), if_neg (not_not_intro h4)]

lemma longitude_from_nmea_success (pstr phemi : List Char)
    (h0 : isdigit (pstr.getD 0 nulChar) = true) (h5 : pstr.getD 5 nulChar = '.') :
    longitude_from_nmea pstr phemi =
      ((if phemi.getD 0 nulChar = 'W' then -(nmea_lon_base pstr) else nmea_lon_base pstr),
       (if phemi.getD 0 nulChar ≠ 'E' ∧ phemi.getD 0 nulChar ≠ 'W' ∧
            phemi.getD 0 nulChar ≠ nulChar
         then (if nmea_lon_base pstr < 0 ∨ nmea_lon_base pstr > 180
           then ["Error: Longitude not in range of 0 to 180.\n"] else []) ++
           ["Error: Longitude hemisphere should be E or W.\n"]
         else (if nmea_lon_base pstr < 0 ∨ nmea_lon_base pstr > 180
           then ["Error: Longitude not in range of 0 to 180.\n"] else []))) := by
  unfold longitude_from_nmea
  rw [if_neg (not_not_intro h0), if_neg (not_not_intro h5)]

/-- Claim C7: once the structural checks pass, an out-of-domain magnitude
and an unrecognized hemisphere character each put a warning on the
diagnostic sink but never change the returned value: the result is the
value computed from the digits and the parsed fraction, negated exactly
when the hemisphere character is 'S' (latitude) resp. 'W' (longitude); an
empty hemisphere applies no flip. -/
theorem nmea_decode_advisory_warnings (pstr phemi : List Char)
    (h0 : isdigit (pstr.getD 0 nulChar) = true) :
    (pstr.getD 4 nulChar = '.' →
      ((latitude_from_nmea pstr phemi).1 =
        (if phemi.getD 0 nulChar = 'S' then -(nmea_lat_base pstr) else nmea_lat_base pstr)) ∧
      ((nmea_lat_base pstr < 0 ∨ nmea_lat_base pstr > 90) →
        "Error: Latitude not in range of 0 to 90.\n" ∈ (latitude_from_nmea pstr phemi).2) ∧
      ((phemi.getD 0 nulChar ≠ 'N' ∧ phemi.getD 0 nulChar ≠ 'S' ∧
          phemi.getD 0 nulChar ≠ nulChar) →
        "Error: Latitude hemisphere should be N or S.\n" ∈ (latitude_from_nmea pstr phemi).2)) ∧
    (pstr.getD 5 nulChar = '.' →
      ((longitude_from_nmea pstr phemi).1 =
        (if phemi.getD 0 nulChar = 'W' then -(nmea_lon_base pstr) else nmea_lon_base pstr)) ∧
      ((nmea_lon_base pstr < 0 ∨ nmea_lon_base pstr > 180) →
        "Error: Longitude not in range of 0 to 180.\n" ∈ (longitude_from_nmea pstr phemi).2) ∧
      ((phemi.getD 0 nulChar ≠ 'E' ∧ phemi.getD 0 nulChar ≠ 'W' ∧
          phemi.getD 0 nulChar ≠ nulChar) →
        "Error: Longitude hemisphere should be E or W.\n" ∈ (longitude_from_nmea pstr phemi).2)) := by
  constructor
  · intro h4
    rw [latitude_from_nmea_success pstr phemi h0 h4]
    refine ⟨rfl, ?_, ?_⟩
    · intro hr
      show _ ∈ (if phemi.getD 0 nulChar ≠ 'N' ∧ phemi.getD 0 nulChar ≠ 'S' ∧
          phemi.getD 0 nulChar ≠ nulChar
        then (if nmea_lat_base pstr < 0 ∨ nmea_lat_base pstr > 90
          then ["Error: Latitude not in range of 0 to 90.\n"] else []) ++
          ["Error: Latitude hemisphere should be N or S.\n"]
        else (if nmea_lat_base pstr < 0 ∨ nmea_lat_base pstr > 90
          then ["Error: Latitude not in range of 0 to 90.\n"] else []))
      rw [if_pos hr]
      split_ifs <;> simp
    · intro hb
      show _ ∈ (if phemi.getD 0 nulChar ≠ 'N' ∧ phemi.getD 0 nulChar ≠ 'S' ∧
          phemi.getD 0 nulChar ≠ nulChar
        then (if nmea_lat_base pstr < 0 ∨ nmea_lat_base pstr > 90
          then ["Error: Latitude not in range of 0 to 90.\n"] else []) ++
          ["Error: Latitude hemisphere should be N or S.\n"]
        else (if nmea_lat_base pstr < 0 ∨ nmea_lat_base pstr > 90
          then ["Error: Latitude not in range of 0 to 90.\n"] else []))
      rw [if_pos hb]
      simp
  · intro h5
    rw [longitude_from_nmea_success pstr phemi h0 h5]
    refine ⟨rfl, ?_, ?_⟩
    · intro hr
      show _ ∈ (if phemi.getD 0 nulChar ≠ 'E' ∧ phemi.getD 0 nulChar ≠ 'W' ∧
          phemi.getD 0 nulChar ≠ nulChar
        then (if nmea_lon_base pstr < 0 ∨ nmea_lon_base pstr > 180
          then ["Error: Longitude not in range of 0 to 180.\n"] else []) ++
          ["Error: Longitude hemisphere should be E or W.\n"]
        else (if nmea_lon_base pstr < 0 ∨ nmea_lon_base pstr > 180
          then ["Error: Longitude not in range of 0 to 180.\n"] else []))
      rw [if_pos hr]
      split_ifs <;> simp
    · intro hb
      show _ ∈ (if phemi.getD 0 nulChar ≠ 'E' ∧ phemi.getD 0 nulChar ≠ 'W' ∧
          phemi.getD 0 nulChar ≠ nulChar
        then (if nmea_lon_base pstr < 0 ∨ nmea_lon_base pstr > 180
          then ["Error: Longitude not in range of 0 to 180.\n"] else []) ++
          ["Error: Longitude hemisphere should be E or W.\n"]
        else (if nmea_lon_base pstr < 0 ∨ nmea_lon_base pstr > 180
          then ["Error: Longitude not in range of 0 to 180.\n"] else []))
      rw [if_pos hb]
      simp

/-- Witness for claim C7: the latitude field "4903.5000" with hemisphere
"N" decodes to its computed magnitude with no sign flip. -/
theorem nmea_decode_advisory_witness :
    (latitude_from_nmea (['4','9','0','3','.','5','0','0','0']) (['N'])).1 =
      (if (['N'] : List Char).getD 0 nulChar = 'S'
        then -(nmea_lat_base (['4','9','0','3','.','5','0','0','0']))
        else nmea_lat_base (['4','9','0','3','.','5','0','0','0'])) :=
  ((nmea_decode_advisory_warnings (['4','9','0','3','.','5','0','0','0']) (['N'])
    (by decide)).1 (by decide)).1

/-- Claim C8: for any numeric field passing the structural checks,
decoding with the negative hemisphere letter gives exactly the negation of
decoding with the positive one. -/
theorem nmea_decode_hemisphere_negation (pstr : List Char) :
    (isdigit (pstr.getD 0 nulChar) = true → pstr.getD 4 nulChar = '.' →
      (latitude_from_nmea pstr (['S'])).1 = -((latitude_from_nmea pstr (['N'])).1)) ∧
    (isdigit (pstr.getD 0 nulChar) = true → pstr.getD 5 nulChar = '.' →
      (longitude_from_nmea pstr (['W'])).1 = -((longitude_from_nmea pstr (['E'])).1)) := by
  constructor
  · intro h0 h4
    rw [latitude_from_nmea_success pstr (['S']) h0 h4,
      latitude_from_nmea_success pstr (['N']) h0 h4]
    norm_num [List.getD]
    rw [if_neg (show ¬ ('N' = 'S') by decide)]
  · intro h0 h5
    rw [longitude_from_nmea_success pstr (['W']) h0 h5,
      longitude_from_nmea_success pstr (['E']) h0 h5]
    norm_num [List.getD]
    rw [if_neg (show ¬ ('E' = 'W') by decide)]

/-- Witness for claim C8: decoding "4903.5000" with hemisphere "S" gives
the negation of decoding it with hemisphere "N". -/
theorem nmea_decode_hemisphere_negation_witness :
    (latitude_from_nmea (['4','9','0','3','.','5','0','0','0']) (['S'])).1 =
      -((latitude_from_nmea (['4','9','0','3','.','5','0','0','0']) (['N'])).1) :=
  (nmea_decode_hemisphere_negation (['4','9','0','3','.','5','0','0','0'])).1
    (by decide) (by decide)

/-! Helper lemmas for the blanked-position invariants. -/

lemma isBlank_set (l : List Char) (i j : ℕ) (h : isBlank l j) :
    isBlank (l.set i ' ') j := by
  unfold isBlank at h ⊢
  rw [getD_set_iff]
  split_ifs with hc
  · rfl
  · exact h

lemma isBlank_blankAt (is : List ℕ) (l : List Char) (j : ℕ) (h : isBlank l j) :
    isBlank (blankAt is l) j := by
  induction is generalizing l with
  | nil => exact h
  | cons i t ih =>
    show isBlank (blankAt t (l.set i ' ')) j
    exact ih _ (isBlank_set l i j h)

lemma blankAt_append (a b : List ℕ) (l : List Char) :
    blankAt (a ++ b) l = blankAt b (blankAt a l) :=
  List.foldl_append _ _ _ _

lemma getD_blankAt_not_mem (is : List ℕ) (l : List Char) (j : ℕ) (h : j ∉ is) :
    (blankAt is l).getD j '?' = l.getD j '?' := by
  induction is generalizing l with
  | nil => rfl
  | cons i t ih =>
    have hji : ¬ (i = j ∧ j < l.length) := by
      intro hc
      exact h (hc.1 ▸ List.mem_cons_self i t)
    have hjt : j ∉ t := fun ht => h (List.mem_cons_of_mem _ ht)
    show (blankAt t (l.set i ' ')).getD j '?' = _
    rw [ih _ hjt, getD_set_iff, if_neg hji]

lemma latBlanks_subset (k : ℤ) (i : ℕ) (h : i ∈ latBlanks k) :
    i = 6 ∨ i = 5 ∨ i = 3 ∨ i = 2 := by
  unfold latBlanks at h
  split_ifs at h <;> simp at h <;> tauto

lemma lonBlanks_subset (k : ℤ) (i : ℕ) (h : i ∈ lonBlanks k) :
    i = 7 ∨ i = 6 ∨ i = 4 ∨ i = 3 := by
  unfold lonBlanks at h
  split_ifs at h <;> simp at h <;> tauto

lemma lat_base_struct (d : ℚ) : ∃ c0 c1 c2 c3 c5 c6 : Char,
    (latitude_to_str d 0).1 = [c0, c1, c2, c3, '.', c5, c6, lat_hemi d] ∧
    ∀ c ∈ [c0, c1, c2, c3, c5, c6], 48 ≤ c.toNat ∧ c.toNat ≤ 57 := by
  obtain ⟨c0, c1, hp⟩ := List.length_eq_two.1 (lat_pad_length 2 d)
  have hm0 : 48 ≤ c0.toNat ∧ c0.toNat ≤ 57 := pad_nat_mem _ _ _ (by rw [hp]; simp)
  have hm1 : 48 ≤ c1.toNat ∧ c1.toNat ≤ 57 := pad_nat_mem _ _ _ (by rw [hp]; simp)
  by_cases h6 : (fmt_min 2 (lat_dmin d)).headD '?' = '6'
  · have hs := (lat_smin2_carry 2 d h6).1
    refine ⟨c0, c1, '0', '0', '0', '0', ?_, ?_⟩
    · rw [lat_str_zero, hp, hs]
      rfl
    · intro c hc
      simp only [List.mem_cons, List.not_mem_nil, or_false] at hc
      rcases hc with h | h | h | h | h | h <;> subst h
      · exact hm0
      · exact hm1
      · decide
      · decide
      · decide
      · decide
  · have hnle := fmt_n_le (lat_dmin d) 2 (lat_dmin_range d).1 (lat_dmin_range d).2
    have hdiv : (round (lat_dmin d * 10 ^ 2)).toNat / 10 ^ 2 < 10 ^ 2 :=
      lt_of_le_of_lt (fmt_div_le _ 2 hnle) (by norm_num)
    have hmod : (round (lat_dmin d * 10 ^ 2)).toNat % 10 ^ 2 < 10 ^ 2 :=
      Nat.mod_lt _ (by norm_num)
    obtain ⟨c2, c3, hq⟩ := List.length_eq_two.1 (pad_nat_length 2 _ hdiv)
    obtain ⟨c5, c6, hr⟩ := List.length_eq_two.1 (pad_nat_length 2 _ hmod)
    have hm2 : 48 ≤ c2.toNat ∧ c2.toNat ≤ 57 := pad_nat_mem _ _ _ (by rw [hq]; simp)
    have hm3 : 48 ≤ c3.toNat ∧ c3.toNat ≤ 57 := pad_nat_mem _ _ _ (by rw [hq]; simp)
    have hm5 : 48 ≤ c5.toNat ∧ c5.toNat ≤ 57 := pad_nat_mem _ _ _ (by rw [hr]; simp)
    have hm6 : 48 ≤ c6.toNat ∧ c6.toNat ≤ 57 := pad_nat_mem _ _ _ (by rw [hr]; simp)
    have hs : lat_smin2 2 d = [c2, c3, '.', c5, c6] := by
      rw [(lat_smin2_no_carry 2 d h6).1, fmt_min_eq, hq, hr]
      rfl
    refine ⟨c0, c1, c2, c3, c5, c6, ?_, ?_⟩
    · rw [lat_str_zero, hp, hs]
      rfl
    · intro c hc
      simp only [List.mem_cons, List.not_mem_nil, or_false] at hc
      rcases hc with h | h | h | h | h | h <;> subst h
      · exact hm0
      · exact hm1
      · exact hm2
      · exact hm3
      · exact hm5
      · exact hm6

lemma lon_base_struct (d : ℚ) : ∃ c0 c1 c2 c3 c4 c6 c7 : Char,
    (longitude_to_str d 0).1 = [c0, c1, c2, c3, c4, '.', c6, c7, lon_hemi d] ∧
    ∀ c ∈ [c0, c1, c2, c3, c4, c6, c7], 48 ≤ c.toNat ∧ c.toNat ≤ 57 := by
  obtain ⟨c0, c1, c2, hp⟩ := List.length_eq_three.1 (lon_pad_length 2 d)
  have hm0 : 48 ≤ c0.toNat ∧ c0.toNat ≤ 57 := pad_nat_mem _ _ _ (by rw [hp]; simp)
  have hm1 : 48 ≤ c1.toNat ∧ c1.toNat ≤ 57 := pad_nat_mem _ _ _ (by rw [hp]; simp)
  have hm2 : 48 ≤ c2.toNat ∧ c2.toNat ≤ 57 := pad_nat_mem _ _ _ (by rw [hp]; simp)
  by_cases h6 : (fmt_min 2 (lon_dmin d)).headD '?' = '6'
  · have hs := (lon_smin2_carry 2 d h6).1
    refine ⟨c0, c1, c2, '0', '0', '0', '0', ?_, ?_⟩
    · rw [lon_str_zero, hp, hs]
      rfl
    · intro c hc
      simp only [List.mem_cons, List.not_mem_nil, or_false] at hc
      rcases hc with h | h | h | h | h | h | h <;> subst h
      · exact hm0
      · exact hm1
      · exact hm2
      · decide
      · decide
      · decide
      · decide
  · have hnle := fmt_n_le (lon_dmin d) 2 (lon_dmin_range d).1 (lon_dmin_range d).2
    have hdiv : (round (lon_dmin d * 10 ^ 2)).toNat / 10 ^ 2 < 10 ^ 2 :=
      lt_of_le_of_lt (fmt_div_le _ 2 hnle) (by norm_num)
    have hmod : (round (lon_dmin d * 10 ^ 2)).toNat % 10 ^ 2 < 10 ^ 2 :=
      Nat.mod_lt _ (by norm_num)
    obtain ⟨c3, c4, hq⟩ := List.length_eq_two.1 (pad_nat_length 2 _ hdiv)
    obtain ⟨c6, c7, hr⟩ := List.length_eq_two.1 (pad_nat_length 2 _ hmod)
    have hm3 : 48 ≤ c3.toNat ∧ c3.toNat ≤ 57 := pad_nat_mem _ _ _ (by rw [hq]; simp)
    have hm4 : 48 ≤ c4.toNat ∧ c4.toNat ≤ 57 := pad_nat_mem _ _ _ (by rw [hq]; simp)
    have hm6 : 48 ≤ c6.toNat ∧ c6.toNat ≤ 57 := pad_nat_mem _ _ _ (by rw [hr]; simp)
    have hm7 : 48 ≤ c7.toNat ∧ c7.toNat ≤ 57 := pad_nat_mem _ _ _ (by rw [hr]; simp)
    have hs : lon_smin2 2 d = [c3, c4, '.', c6, c7] := by
      rw [(lon_smin2_no_carry 2 d h6).1, fmt_min_eq, hq, hr]
      rfl
    refine ⟨c0, c1, c2, c3, c4, c6, c7, ?_, ?_⟩
    · rw [lon_str_zero, hp, hs]
      rfl
    · intro c hc
      simp only [List.mem_cons, List.not_mem_nil, or_false] at hc
      rcases hc with h | h | h | h | h | h | h <;> subst h
      · exact hm0
      · exact hm1
      · exact hm2
      · exact hm3
      · exact hm4
      · exact hm6
      · exact hm7

lemma lat_base_facts (d : ℚ) :
    (∀ j, ¬ isBlank ((latitude_to_str d 0).1) j) ∧
    (latitude_to_str d 0).1.getD 4 '?' = '.' ∧
    (latitude_to_str d 0).1.getD 7 '?' = lat_hemi d := by
  obtain ⟨c0, c1, c2, c3, c5, c6, hb, hmem⟩ := lat_base_struct d
  refine ⟨?_, by rw [hb]; rfl, by rw [hb]; rfl⟩
  intro j hbl
  unfold isBlank at hbl
  rw [hb] at hbl
  rcases j with _ | _ | _ | _ | _ | _ | _ | _ | j
  · simp only [List.getD_cons_zero] at hbl
    subst hbl
    exact absurd (hmem ' ' (by simp)) (by decide)
  · simp only [List.getD_cons_succ, List.getD_cons_zero] at hbl
    subst hbl
    exact absurd (hmem ' ' (by simp)) (by decide)
  · simp only [List.getD_cons_succ, List.getD_cons_zero] at hbl
    subst hbl
    exact absurd (hmem ' ' (by simp)) (by decide)
  · simp only [List.getD_cons_succ, List.getD_cons_zero] at hbl
    subst hbl
    exact absurd (hmem ' ' (by simp)) (by decide)
  · simp only [List.getD_cons_succ, List.getD_cons_zero] at hbl
    exact absurd hbl (by decide)
  · simp only [List.getD_cons_succ, List.getD_cons_zero] at hbl
    subst hbl
    exact absurd (hmem ' ' (by simp)) (by decide)
  · simp only [List.getD_cons_succ, List.getD_cons_zero] at hbl
    subst hbl
    exact absurd (hmem ' ' (by simp)) (by decide)
  · simp only [List.getD_cons_succ, List.getD_cons_zero] at hbl
    unfold lat_hemi at hbl
    split_ifs at hbl <;> exact absurd hbl (by decide)
  · simp only [List.getD_cons_succ] at hbl
    simp [List.getD] at hbl

lemma lon_base_facts (d : ℚ) :
    (∀ j, ¬ isBlank ((longitude_to_str d 0).1) j) ∧
    (longitude_to_str d 0).1.getD 5 '?' = '.' ∧
    (longitude_to_str d 0).1.getD 8 '?' = lon_hemi d := by
  obtain ⟨c0, c1, c2, c3, c4, c6, c7, hb, hmem⟩ := lon_base_struct d
  refine ⟨?_, by rw [hb]; rfl, by rw [hb]; rfl⟩
  intro j hbl
  unfold isBlank at hbl
  rw [hb] at hbl
  rcases j with _ | _ | _ | _ | _ | _ | _ | _ | _ | j
  · simp only [List.getD_cons_zero] at hbl
    subst hbl
    exact absurd (hmem ' ' (by simp)) (by decide)
  · simp only [List.getD_cons_succ, List.getD_cons_zero] at hbl
    subst hbl
    exact absurd (hmem ' ' (by simp)) (by decide)
  · simp only [List.getD_cons_succ, List.getD_cons_zero] at hbl
    subst hbl
    exact absurd (hmem ' ' (by simp)) (by decide)
  · simp only [List.getD_cons_succ, List.getD_cons_zero] at hbl
    subst hbl
    exact absurd (hmem ' ' (by simp)) (by decide)
  · simp only [List.getD_cons_succ, List.getD_cons_zero] at hbl
    subst hbl
    exact absurd (hmem ' ' (by simp)) (by decide)
  · simp only [List.getD_cons_succ, List.getD_cons_zero] at hbl
    exact absurd hbl (by decide)
  · simp only [List.getD_cons_succ, List.getD_cons_zero] at hbl
    subst hbl
    exact absurd (hmem ' ' (by simp)) (by decide)
  · simp only [List.getD_cons_succ, List.getD_cons_zero] at hbl
    subst hbl
    exact absurd (hmem ' ' (by simp)) (by decide)
  · simp only [List.getD_cons_succ, List.getD_cons_zero] at hbl
    unfold lon_hemi at hbl
    split_ifs at hbl <;> exact absurd hbl (by decide)
  · simp only [List.getD_cons_succ] at hbl
    simp [List.getD] at hbl

/-- Claim C9: for every coordinate, the set of blanked character positions
at ambiguity level k+1 contains the set blanked at level k (k = 0..3);
level 0 blanks no position; and at every level 0..4 the blanked positions
never include the decimal point or the hemisphere letter. -/
theorem ambiguity_blank_sets_monotone (d e : ℚ) (k : ℤ) (hk0 : 0 ≤ k) (hk3 : k ≤ 3) :
    (∀ j, isBlank ((latitude_to_str d k).1) j → isBlank ((latitude_to_str d (k + 1)).1) j) ∧
    (∀ j, isBlank ((longitude_to_str e k).1) j → isBlank ((longitude_to_str e (k + 1)).1) j) ∧
    (∀ j, ¬ isBlank ((latitude_to_str d 0).1) j) ∧
    (∀ j, ¬ isBlank ((longitude_to_str e 0).1) j) ∧
    (∀ k' : ℤ, 0 ≤ k' → k' ≤ 4 →
      ¬ isBlank ((latitude_to_str d k').1) 4 ∧ ¬ isBlank ((latitude_to_str d k').1) 7 ∧
      ¬ isBlank ((longitude_to_str e k').1) 5 ∧ ¬ isBlank ((longitude_to_str e k').1) 8) := by
  refine ⟨?_, ?_, (lat_base_facts d).1, (lon_base_facts e).1, ?_⟩
  · intro j h
    rw [lat_blank_eq d (k + 1)]
    rw [lat_blank_eq d k] at h
    interval_cases k
    · rw [show latBlanks (0 + 1) = latBlanks 0 ++ [6] from by decide, blankAt_append]
      exact isBlank_blankAt _ _ _ h
    · rw [show latBlanks (1 + 1) = latBlanks 1 ++ [5] from by decide, blankAt_append]
      exact isBlank_blankAt _ _ _ h
    · rw [show latBlanks (2 + 1) = latBlanks 2 ++ [3] from by decide, blankAt_append]
      exact isBlank_blankAt _ _ _ h
    · rw [show latBlanks (3 + 1) = latBlanks 3 ++ [2] from by decide, blankAt_append]
      exact isBlank_blankAt _ _ _ h
  · intro j h
    rw [lon_blank_eq e (k + 1)]
    rw [lon_blank_eq e k] at h
    interval_cases k
    · rw [show lonBlanks (0 + 1) = lonBlanks 0 ++ [7] from by decide, blankAt_append]
      exact isBlank_blankAt _ _ _ h
    · rw [show lonBlanks (1 + 1) = lonBlanks 1 ++ [6] from by decide, blankAt_append]
      exact isBlank_blankAt _ _ _ h
    · rw [show lonBlanks (2 + 1) = lonBlanks 2 ++ [4] from by decide, blankAt_append]
      exact isBlank_blankAt _ _ _ h
    · rw [show lonBlanks (3 + 1) = lonBlanks 3 ++ [3] from by decide, blankAt_append]
      exact isBlank_blankAt _ _ _ h
  · intro k' _ _
    refine ⟨?_, ?_, ?_, ?_⟩
    · rw [lat_blank_eq d k']
      unfold isBlank
      rw [getD_blankAt_not_mem _ _ _ (fun hm => by
        rcases latBlanks_subset k' 4 hm with h | h | h | h <;> omega)]
      rw [(lat_base_facts d).2.1]
      decide
    · rw [lat_blank_eq d k']
      unfold isBlank
      rw [getD_blankAt_not_mem _ _ _ (fun hm => by
        rcases latBlanks_subset k' 7 hm with h | h | h | h <;> omega)]
      rw [(lat_base_facts d).2.2]
      unfold lat_hemi
      split_ifs <;> decide
    · rw [lon_blank_eq e k']
      unfold isBlank
      rw [getD_blankAt_not_mem _ _ _ (fun hm => by
        rcases lonBlanks_subset k' 5 hm with h | h | h | h <;> omega)]
      rw [(lon_base_facts e).2.1]
      decide
    · rw [lon_blank_eq e k']
      unfold isBlank
      rw [getD_blankAt_not_mem _ _ _ (fun hm => by
        rcases lonBlanks_subset k' 8 hm with h | h | h | h <;> omega)]
      rw [(lon_base_facts e).2.2]
      unfold lon_hemi
      split_ifs <;> decide

/-- Witness for claim C9 at latitude 0, longitude 0 and level 0. -/
theorem ambiguity_blank_sets_monotone_witness :
    (0 : ℤ) ≤ 0 ∧ (0 : ℤ) ≤ 3 ∧ (∀ j, ¬ isBlank ((latitude_to_str (0 : ℚ) 0).1) j) :=
  ⟨le_refl 0, by norm_num,
    (ambiguity_blank_sets_monotone 0 0 0 (le_refl 0) (by norm_num)).2.2.1⟩
